import Mathlib

/-!
Verification of the Wikipedia API gateway (`src/main.py`) against its
specification.  The Python source is shallowly embedded: the upstream
`wikipedia` library is an oracle record, exceptions become an inductive
type, the FastAPI handlers become pure functions, and the process-wide
language setting mutated by `wikipedia.set_lang` is threaded explicitly
as state through the random-article route handler.
-/

/-- A page object as returned by `wikipedia.page(title)`: the fields the
gateway reads (`page.url`, `page.categories`). -/
structure Page where
  url : String
  categories : List String
  deriving Repr, DecidableEq

/-- Exceptions that the `wikipedia` library can raise, as discriminated
by the `except` clauses in `src/main.py`: `wikipedia.DisambiguationError`
(carrying the ambiguous title and its `options`), `wikipedia.PageError`,
and any other exception (carrying its `str(e)` text). -/
inductive WikiException where
  | disambiguationError (title : String) (options : List String)
  | pageError (title : String)
  | other (msg : String)
  deriving Repr, DecidableEq

/-- Python `str(e)` for a `wikipedia` exception, following the message
formats of the `wikipedia` library. -/
def WikiException.str : WikiException → String
  | .disambiguationError t opts =>
      "\x22" ++ t ++ "\x22 may refer to: \n" ++ String.intercalate "\n" opts
  | .pageError t =>
      "\x22" ++ t ++ "\x22 does not match any pages. Try another id!"
  | .other msg => msg

/-- The `fastapi.HTTPException` values raised by the gateway: a status
code and a human-readable `detail` string. -/
structure HTTPException where
  status_code : Nat
  detail : String
  deriving Repr, DecidableEq

/-- Python `str(e)` for a `fastapi.HTTPException` (Starlette renders it
as `"status_code: detail"`). -/
def HTTPException.str (e : HTTPException) : String :=
  toString e.status_code ++ ": " ++ e.detail

/-- Python `str` of a list of strings, as produced by an f-string such
as `f"... \x7be.options[:5]\x7d"`: elements quoted and comma-separated
inside square brackets. -/
def pyReprList (xs : List String) : String :=
  "[" ++ String.intercalate ", " (xs.map (fun s => "\x27" ++ s ++ "\x27")) ++ "]"

/-- Oracle for the upstream `wikipedia` library: each primitive the
gateway calls either returns a value or raises a `WikiException`.
`articleSentences` gives the sentence sequence of each source article,
used to state the library's contract that `wikipedia.summary(t, sentences=n)`
returns the first `n` sentences. -/
structure Upstream where
  search : String → Int → Except WikiException (List String)
  page : String → Except WikiException Page
  summary : String → Nat → Except WikiException String
  random : Except WikiException String
  articleSentences : String → List String

/-- Contract of the upstream library's `summary` primitive (documented
behaviour of `wikipedia.summary(title, sentences=n)`): on success it
returns the first `n` sentences of the source article joined by spaces. -/
def summaryContract (u : Upstream) : Prop :=
  ∀ t n s, u.summary t n = Except.ok s →
    s = String.intercalate " " ((u.articleSentences t).take n)

/-- The gateway object: `WikipediaClient` in `src/main.py`.  Only the
`language` attribute matters to the verified behaviour; `base_url` is
kept for fidelity to `__init__`. -/
structure WikipediaClient where
  language : String
  base_url : String
  deriving Repr, DecidableEq

/-- Construction of a `WikipediaClient(language)`: stores the language
attribute, calls `wikipedia.set_lang(language)` (returned as the new
process-wide language), and builds `base_url`.  The Python default
argument is `language="ru"`. -/
def WikipediaClient.init (language : String) : WikipediaClient × String :=
  (⟨language, "https://" ++ language ++ ".wikipedia.org/api/rest_v1"⟩, language)

/-- The module-level singleton `wikipedia_client = WikipediaClient()`. -/
def wikipedia_client : WikipediaClient :=
  (WikipediaClient.init "ru").1

/-- The JSON shape built by `WikipediaClient.search_articles`. -/
structure SearchResult where
  query : String
  limit : Int
  total_results : Nat
  results : List String
  deriving Repr, DecidableEq

/-- The JSON shape built by `WikipediaClient.get_article_summary`. -/
structure ArticleSummary where
  title : String
  summary : String
  url : String
  categories : List String
  deriving Repr, DecidableEq

/-- `WikipediaClient.search_articles(query, limit)`: delegates to
`wikipedia.search(query, results=limit)`; on success wraps the result
list, on any exception raises HTTP 500 carrying `str(e)`. -/
def WikipediaClient.search_articles (u : Upstream) (query : String) (limit : Int) :
    Except HTTPException SearchResult :=
  match u.search query limit with
  | .ok search_results =>
      .ok { query := query, limit := limit,
            total_results := search_results.length, results := search_results }
  | .error e => .error ⟨500, "Ошибка поиска: " ++ e.str⟩

/-- Translation of a `wikipedia` exception by the `except` clauses of
`WikipediaClient.get_article_summary`: `DisambiguationError` → HTTP 400
listing `e.options[:5]`, `PageError` → HTTP 404, anything else →
HTTP 500 carrying `str(e)`. -/
def summaryExcToHTTP : WikiException → HTTPException
  | .disambiguationError _ options =>
      ⟨400, "Неоднозначный запрос. Возможные варианты: " ++ pyReprList (options.take 5)⟩
  | .pageError _ => ⟨404, "Страница не найдена"⟩
  | e => ⟨500, "Ошибка получения статьи: " ++ e.str⟩

/-- `WikipediaClient.get_article_summary(title)`: calls
`wikipedia.page(title)` then `wikipedia.summary(title, sentences=3)`,
builds the result dict with `page.url` and `page.categories[:5]`; any
raised `wikipedia` exception is translated by the `except` clauses. -/
def WikipediaClient.get_article_summary (u : Upstream) (title : String) :
    Except HTTPException ArticleSummary :=
  match u.page title with
  | .error e => .error (summaryExcToHTTP e)
  | .ok page =>
    match u.summary title 3 with
    | .error e => .error (summaryExcToHTTP e)
    | .ok summary =>
        .ok { title := title, summary := summary, url := page.url,
              categories := page.categories.take 5 }

/-- The first exception raised inside the `try` block of
`get_article_summary` (from `wikipedia.page`, else from
`wikipedia.summary`), if any. -/
def firstSummaryExc (u : Upstream) (title : String) : Option WikiException :=
  match u.page title with
  | .error e => some e
  | .ok _ =>
    match u.summary title 3 with
    | .error e => some e
    | .ok _ => none

/-- `WikipediaClient.get_random_article()`: picks `wikipedia.random(pages=1)`
and delegates to `get_article_summary`; its `except Exception` clause
catches every exception — including the `HTTPException`s raised by the
inner `get_article_summary`, since `HTTPException` subclasses
`Exception` — and rewraps it as HTTP 500 carrying `str(e)`. -/
def WikipediaClient.get_random_article (u : Upstream) :
    Except HTTPException ArticleSummary :=
  match u.random with
  | .error e => .error ⟨500, "Ошибка получения случайной статьи: " ++ e.str⟩
  | .ok random_title =>
    match WikipediaClient.get_article_summary u random_title with
    | .ok result => .ok result
    | .error he =>
        .error ⟨500, "Ошибка получения случайной статьи: " ++ he.str⟩

/-- The route paths registered on the FastAPI app in `src/main.py`, as
written in the `@app.get(...)` decorators. -/
def appRoutes : List String :=
  ["/", "/articles/search/\x7bquery\x7d", "/articles/\x7btitle\x7d/summary",
   "/articles/random"]

/-- A response as seen by the HTTP client: either a successful payload,
an `HTTPException` raised by a handler, or a request-validation error
produced by the framework before the handler runs. -/
inductive RouteResponse (α : Type) where
  | ok (a : α)
  | httpError (e : HTTPException)
  | validationError
  deriving Repr, DecidableEq

/-- Semantics of the FastAPI parameter declaration
`limit : int = Query(10, ge=1, le=50)`: a missing parameter takes the
default 10; a supplied value outside `[1, 50]` fails request validation
(HTTP 422) — FastAPI rejects constraint violations, it does not clamp. -/
def parseLimit (raw : Option Int) : Except Unit Int :=
  match raw with
  | none => .ok 10
  | some n => if 1 ≤ n ∧ n ≤ 50 then .ok n else .error ()

/-- The route handler `search_articles` at
`GET /articles/search/\x7bquery\x7d`: framework-validated `limit`, then
delegation to `wikipedia_client.search_articles`. -/
def search_articles_route (u : Upstream) (query : String) (rawLimit : Option Int) :
    RouteResponse SearchResult :=
  match parseLimit rawLimit with
  | .error _ => .validationError
  | .ok limit =>
    match WikipediaClient.search_articles u query limit with
    | .ok r => .ok r
    | .error e => .httpError e

/-- The route handler `get_article_summary` at
`GET /articles/\x7btitle\x7d/summary`. -/
def get_article_summary_route (u : Upstream) (title : String) :
    RouteResponse ArticleSummary :=
  match WikipediaClient.get_article_summary u title with
  | .ok r => .ok r
  | .error e => .httpError e

/-- Payload of the root endpoint. -/
structure RootPayload where
  message : String
  version : String
  deriving Repr, DecidableEq

/-- The route handler `root` at `GET /`: a constant JSON payload with a
200 status; the handler body never touches the upstream oracle. -/
def root (_u : Upstream) : Nat × RootPayload :=
  (200, ⟨"Wikipedia API Wrapper", "1.0.0"⟩)

/-- Observable outcome of one run of the `get_random_article` route
handler: the response, the process-wide `wikipedia` language after the
handler finishes, the sequence of `wikipedia.set_lang` calls it made,
the language in effect while `get_random_article` ran, and the gateway
object afterwards. -/
structure RandomRouteOutcome where
  response : Except HTTPException ArticleSummary
  finalLang : String
  writes : List String
  langDuringCall : String
  clientAfter : WikipediaClient

/-- The route handler `get_random_article` at `GET /articles/random`
(query parameter `language`, default `"ru"`).  It reads
`original_language = wikipedia_client.language`, calls
`wikipedia.set_lang(language)` when `language` differs from the client's
language, runs `get_random_article` in a `try` block, and in the
`finally` block calls `wikipedia.set_lang(original_language)` when
`language` differs from `original_language`.  The process-wide language
`g0` at request arrival is threaded explicitly; the upstream oracle is
indexed by the language in effect during the call. -/
def get_random_article_route (u : String → Upstream) (client : WikipediaClient)
    (language : String) (g0 : String) : RandomRouteOutcome :=
  let original_language := client.language
  let g1 := if language ≠ client.language then language else g0
  let w1 : List String := if language ≠ client.language then [language] else []
  let result := WikipediaClient.get_random_article (u g1)
  let g2 := if language ≠ original_language then original_language else g1
  let w2 : List String := if language ≠ original_language then [original_language] else []
  { response := result, finalLang := g2, writes := w1 ++ w2,
    langDuringCall := g1, clientAfter := client }

/-- A concrete upstream oracle in which every page lookup raises
`PageError`, used to exercise the error paths. -/
def uNotFound : Upstream :=
  { search := fun _ _ => .ok [],
    page := fun _ => .error (.pageError "t"),
    summary := fun _ _ => .error (.pageError "t"),
    random := .ok "t",
    articleSentences := fun _ => [] }

/-- A concrete upstream oracle in which every page lookup raises a
`DisambiguationError` with six candidate pages. -/
def uDisamb : Upstream :=
  { search := fun _ _ => .ok ["a", "b"],
    page := fun _ => .error (.disambiguationError "A" ["a", "b", "c", "d", "e", "f"]),
    summary := fun _ _ => .error (.disambiguationError "A" ["a", "b", "c", "d", "e", "f"]),
    random := .ok "A",
    articleSentences := fun _ => [] }

/-- Sentence sequence used by the well-behaved concrete oracle. -/
def sampleSentences : List String :=
  ["Первое предложение.", "Второе предложение.", "Третье предложение.", "Четвёртое предложение."]

/-- A concrete well-behaved upstream oracle: searches succeed, pages
exist with six categories, and `summary` honours the library contract
of returning the first `n` sentences. -/
def uGood : Upstream :=
  { search := fun _ _ => .ok ["Python", "Python (язык программирования)"],
    page := fun _ => .ok ⟨"https://ru.wikipedia.org/wiki/Python",
                          ["k1", "k2", "k3", "k4", "k5", "k6"]⟩,
    summary := fun _ n => .ok (String.intercalate " " ((sampleSentences).take n)),
    random := .ok "Python",
    articleSentences := fun _ => sampleSentences }

/-- A concrete upstream oracle whose search primitive raises an
arbitrary exception. -/
def uFailSearch : Upstream :=
  { search := fun _ _ => .error (.other "boom"),
    page := fun _ => .error (.other "boom"),
    summary := fun _ _ => .error (.other "boom"),
    random := .error (.other "boom"),
    articleSentences := fun _ => [] }

/-- C1: if the random-article route is called with a language differing
from the gateway's configured default (and the process-wide language at
entry equals that default, as the constructor establishes and every
request re-establishes), the process-wide language is set to the
requested language for the duration of the upstream call and — via the
`finally` block, hence whether the call succeeds or raises — set back to
the prior language afterwards; if the requested language equals the
default, `wikipedia.set_lang` is never called at all. -/
theorem random_route_scoped_language (u : String → Upstream)
    (client : WikipediaClient) (language g0 : String)
    (hg : g0 = client.language) :
    (language ≠ client.language →
      (get_random_article_route u client language g0).langDuringCall = language ∧
      (get_random_article_route u client language g0).finalLang = g0 ∧
      (get_random_article_route u client language g0).writes = [language, g0]) ∧
    (language = client.language →
      (get_random_article_route u client language g0).writes = []) := by
  subst hg
  constructor
  · intro h
    simp [get_random_article_route, h]
  · intro h
    simp [get_random_article_route, h]

/-- Witness for C1 at a concrete request: language "en" against the
default "ru". -/
theorem random_route_scoped_language_witness :
    (get_random_article_route (fun _ => uNotFound) wikipedia_client "en"
        wikipedia_client.language).langDuringCall = "en" ∧
    (get_random_article_route (fun _ => uNotFound) wikipedia_client "en"
        wikipedia_client.language).finalLang = wikipedia_client.language ∧
    (get_random_article_route (fun _ => uNotFound) wikipedia_client "en"
        wikipedia_client.language).writes = ["en", wikipedia_client.language] :=
  (random_route_scoped_language (fun _ => uNotFound) wikipedia_client "en"
    wikipedia_client.language rfl).1 (by decide)

/-- C10: the gateway's `language` attribute is fixed at construction
(`wikipedia_client` stores "ru") and no operation mutates it; the random
route's restore step writes the constructor-time value
`client.language`, so for every process-wide language `g0` found at
request arrival the final language is `client.language` — in particular
not `g0` whenever `g0` differs from the default. -/
theorem random_route_restores_constructor_language (u : String → Upstream)
    (client : WikipediaClient) (language g0 : String)
    (h : language ≠ client.language) :
    (get_random_article_route u client language g0).finalLang = client.language ∧
    (get_random_article_route u client language g0).clientAfter = client ∧
    (g0 ≠ client.language →
      (get_random_article_route u client language g0).finalLang ≠ g0) ∧
    wikipedia_client = (WikipediaClient.init "ru").1 ∧
    wikipedia_client.language = "ru" := by
  refine ⟨?_, ?_, ?_, rfl, rfl⟩
  · simp [get_random_article_route, h]
  · simp [get_random_article_route]
  · intro hg
    simp [get_random_article_route, h]
    exact fun hfinal => hg hfinal.symm

/-- Witness for C10 at a concrete request: the route is entered with the
process-wide language "de" (not the default), asks for "en", and still
finishes with the constructor-time "ru". -/
theorem random_route_restores_constructor_language_witness :
    (get_random_article_route (fun _ => uNotFound) wikipedia_client "en"
        "de").finalLang = wikipedia_client.language ∧
    (get_random_article_route (fun _ => uNotFound) wikipedia_client "en"
        "de").finalLang ≠ "de" :=
  let r := random_route_restores_constructor_language (fun _ => uNotFound)
    wikipedia_client "en" "de" (by decide)
  ⟨r.1, r.2.2.1 (by decide)⟩

/-- C2: `get_article_summary` has exactly four outcomes: no upstream
exception gives success; a `DisambiguationError` gives HTTP 400 whose
detail lists the first five candidate titles (hence at most 5); a
`PageError` gives HTTP 404; any other exception gives HTTP 500. -/
theorem get_article_summary_outcomes (u : Upstream) (title : String) :
    (firstSummaryExc u title = none →
      ∃ r, WikipediaClient.get_article_summary u title = Except.ok r) ∧
    (∀ t opts, firstSummaryExc u title =
        some (WikiException.disambiguationError t opts) →
      WikipediaClient.get_article_summary u title =
        Except.error ⟨400, "Неоднозначный запрос. Возможные варианты: " ++
          pyReprList (opts.take 5)⟩ ∧
      (opts.take 5).length ≤ 5) ∧
    (∀ t, firstSummaryExc u title = some (WikiException.pageError t) →
      WikipediaClient.get_article_summary u title =
        Except.error ⟨404, "Страница не найдена"⟩) ∧
    (∀ msg, firstSummaryExc u title = some (WikiException.other msg) →
      WikipediaClient.get_article_summary u title =
        Except.error ⟨500, "Ошибка получения статьи: " ++ msg⟩) := by
  unfold firstSummaryExc WikipediaClient.get_article_summary
  cases hp : u.page title with
  | error e =>
    refine ⟨by simp, ?_, ?_, ?_⟩
    · rintro t opts h
      obtain rfl := Option.some.inj h
      exact ⟨rfl, le_trans (List.length_take_le 5 opts) le_rfl⟩
    · rintro t h
      obtain rfl := Option.some.inj h
      rfl
    · rintro msg h
      obtain rfl := Option.some.inj h
      rfl
  | ok page =>
    cases hs : u.summary title 3 with
    | error e =>
      refine ⟨by simp, ?_, ?_, ?_⟩
      · rintro t opts h
        obtain rfl := Option.some.inj h
        exact ⟨rfl, le_trans (List.length_take_le 5 opts) le_rfl⟩
      · rintro t h
        obtain rfl := Option.some.inj h
        rfl
      · rintro msg h
        obtain rfl := Option.some.inj h
        rfl
    | ok s =>
      exact ⟨fun _ => ⟨_, rfl⟩, by simp, by simp, by simp⟩

/-- Witness for C2 at concrete oracles: a six-way ambiguous title yields
the 400 error listing five candidates, and a missing page yields 404. -/
theorem get_article_summary_outcomes_witness :
    (WikipediaClient.get_article_summary uDisamb "A" =
      Except.error ⟨400, "Неоднозначный запрос. Возможные варианты: " ++
        pyReprList (["a", "b", "c", "d", "e", "f"].take 5)⟩ ∧
     ((["a", "b", "c", "d", "e", "f"] : List String).take 5).length ≤ 5) :=
  (get_article_summary_outcomes uDisamb "A").2.1 "A"
    ["a", "b", "c", "d", "e", "f"] rfl

/-- C3 counterexample: the claim says an out-of-range `limit` is clamped
into 1–50 and the request still succeeds; in fact `Query(10, ge=1, le=50)`
makes FastAPI reject `limit=51` with a request-validation error, so the
concrete request `GET /articles/search/python?limit=51` (against an
upstream whose search succeeds) does not succeed at all. -/
theorem search_limit_not_clamped :
    parseLimit (some 51) = Except.error () ∧
    search_articles_route uGood "python" (some 51) = RouteResponse.validationError ∧
    ∀ r, search_articles_route uGood "python" (some 51) ≠ RouteResponse.ok r := by
  refine ⟨rfl, rfl, fun r h => ?_⟩
  simp [search_articles_route, parseLimit] at h

/-- C3 amended: when `limit` is omitted it defaults to 10; a supplied
in-range value is used as given; a supplied value outside 1–50 is
rejected by request validation (not clamped), so the request fails. -/
theorem search_limit_validation (u : Upstream) (q : String) (n : Int) :
    parseLimit none = Except.ok 10 ∧
    (1 ≤ n → n ≤ 50 → parseLimit (some n) = Except.ok n) ∧
    ((n < 1 ∨ 50 < n) →
      search_articles_route u q (some n) = RouteResponse.validationError) := by
  refine ⟨rfl, ?_, ?_⟩
  · intro h1 h2
    simp [parseLimit, h1, h2]
  · intro h
    have hn : ¬ (1 ≤ n ∧ n ≤ 50) := by omega
    simp [search_articles_route, parseLimit, hn]

/-- Witness for the amended C3 at concrete inputs: limit 7 is accepted
as-is and limit 0 is rejected. -/
theorem search_limit_validation_witness :
    parseLimit none = Except.ok 10 ∧
    parseLimit (some 7) = Except.ok 7 ∧
    search_articles_route uGood "python" (some 0) = RouteResponse.validationError :=
  ⟨(search_limit_validation uGood "python" 7).1,
   (search_limit_validation uGood "python" 7).2.1 (by decide) (by decide),
   (search_limit_validation uGood "python" 0).2.2 (by decide)⟩

/-- C5 counterexample: no registered route path carries the `/api`
prefix; in particular `/api/articles/random` is not a route. -/
theorem api_prefix_absent :
    "/api/articles/random" ∉ appRoutes ∧
    "/api/articles/search/\x7bquery\x7d" ∉ appRoutes ∧
    "/api/articles/\x7btitle\x7d/summary" ∉ appRoutes := by
  decide

/-- C5 amended: the three article operations are exposed without an
`/api` prefix, at `/articles/search/\x7bquery\x7d`,
`/articles/\x7btitle\x7d/summary` and `/articles/random`; no registered
path starts with `/api`. -/
theorem routes_without_api_prefix :
    "/articles/search/\x7bquery\x7d" ∈ appRoutes ∧
    "/articles/\x7btitle\x7d/summary" ∈ appRoutes ∧
    "/articles/random" ∈ appRoutes ∧
    appRoutes.all (fun r => !(List.isPrefixOf "/api".data r.data)) = true := by
  decide

/-- C4: for any limit 1 ≤ N ≤ 50, when the upstream search honours its
`results=N` bound, a successful `search_articles` returns at most N
results, and `total_results` always equals the length of the returned
results sequence. -/
theorem search_articles_result_bounds (u : Upstream) (q : String) (N : Int)
    (_h1 : 1 ≤ N) (_h2 : N ≤ 50)
    (hu : ∀ rs, u.search q N = Except.ok rs → (rs.length : Int) ≤ N)
    (r : SearchResult)
    (hok : WikipediaClient.search_articles u q N = Except.ok r) :
    (r.results.length : Int) ≤ N ∧ r.total_results = r.results.length := by
  unfold WikipediaClient.search_articles at hok
  cases hs : u.search q N with
  | ok rs =>
    rw [hs] at hok
    obtain rfl := Except.ok.inj hok
    exact ⟨hu rs hs, rfl⟩
  | error e =>
    rw [hs] at hok
    exact absurd hok (by simp)

/-- Witness for C4 at a concrete search: limit 5 against an oracle
returning two titles. -/
theorem search_articles_result_bounds_witness :
    ∃ r, WikipediaClient.search_articles uGood "python" 5 = Except.ok r ∧
      (r.results.length : Int) ≤ 5 ∧ r.total_results = r.results.length := by
  refine ⟨_, rfl, ?_⟩
  exact search_articles_result_bounds uGood "python" 5 (by decide) (by decide)
    (fun rs h => by cases h; decide) _ rfl

/-- C6: whenever `get_article_summary` succeeds and the upstream
`summary` primitive honours its sentence contract, the returned
`ArticleSummary` carries the requested title, the first 3 sentences of
the source article, the page's canonical URL, and the page's first five
category labels (hence at most 5). -/
theorem get_article_summary_success_shape (u : Upstream) (title : String)
    (hc : summaryContract u) (r : ArticleSummary)
    (hok : WikipediaClient.get_article_summary u title = Except.ok r) :
    r.title = title ∧
    r.summary = String.intercalate " " ((u.articleSentences title).take 3) ∧
    (∃ page, u.page title = Except.ok page ∧
      r.url = page.url ∧ r.categories = page.categories.take 5) ∧
    r.categories.length ≤ 5 := by
  unfold WikipediaClient.get_article_summary at hok
  cases hp : u.page title with
  | error e =>
    rw [hp] at hok
    exact absurd hok (by simp)
  | ok page =>
    rw [hp] at hok
    cases hs : u.summary title 3 with
    | error e =>
      rw [hs] at hok
      exact absurd hok (by simp)
    | ok s =>
      rw [hs] at hok
      obtain rfl := Except.ok.inj hok
      refine ⟨rfl, hc title 3 s hs, ⟨page, rfl, rfl, rfl⟩, ?_⟩
      exact le_trans (List.length_take_le 5 page.categories) le_rfl

/-- Witness for C6 at the concrete well-behaved oracle. -/
theorem get_article_summary_success_shape_witness :
    ∃ r, WikipediaClient.get_article_summary uGood "Python" = Except.ok r ∧
      (r.title = "Python" ∧
       r.summary = String.intercalate " " ((uGood.articleSentences "Python").take 3) ∧
       (∃ page, uGood.page "Python" = Except.ok page ∧
         r.url = page.url ∧ r.categories = page.categories.take 5) ∧
       r.categories.length ≤ 5) := by
  refine ⟨_, rfl, ?_⟩
  exact get_article_summary_success_shape uGood "Python"
    (fun t n s h => (Except.ok.inj h).symm) _ rfl

/-- C7: any upstream exception during search makes `search_articles`
fail with HTTP 500, whose detail string carries the raw text `str(e)` of
the upstream exception as a suffix. -/
theorem search_articles_upstream_failure (u : Upstream) (q : String)
    (limit : Int) (e : WikiException)
    (he : u.search q limit = Except.error e) :
    WikipediaClient.search_articles u q limit =
      Except.error ⟨500, "Ошибка поиска: " ++ e.str⟩ ∧
    e.str.data <:+ ("Ошибка поиска: " ++ e.str).data := by
  constructor
  · unfold WikipediaClient.search_articles
    rw [he]
  · rw [String.data_append]
    exact List.suffix_append _ _

/-- Witness for C7 at a concrete failing search. -/
theorem search_articles_upstream_failure_witness :
    WikipediaClient.search_articles uFailSearch "python" 10 =
      Except.error ⟨500, "Ошибка поиска: " ++ (WikiException.other "boom").str⟩ ∧
    (WikiException.other "boom").str.data <:+
      ("Ошибка поиска: " ++ (WikiException.other "boom").str).data :=
  search_articles_upstream_failure uFailSearch "python" 10
    (WikiException.other "boom") rfl

/-- C8: the root endpoint returns status 200 with a payload holding a
message and a version, and its result does not depend on the upstream
oracle (no upstream call is made). -/
theorem root_endpoint_constant (u v : Upstream) :
    (root u).1 = 200 ∧
    (root u).2.message = "Wikipedia API Wrapper" ∧
    (root u).2.version = "1.0.0" ∧
    root u = root v :=
  ⟨rfl, rfl, rfl, rfl⟩

/-- C9: every failure of `get_random_article` carries status 500; in
particular an `HTTPException` raised by the inner `get_article_summary`
(e.g. the 400 of an ambiguous title or the 404 of a missing page) is
caught by the `except Exception` clause and rewrapped as HTTP 500. -/
theorem get_random_article_failures_are_500 (u : Upstream) :
    (∀ t he, u.random = Except.ok t →
      WikipediaClient.get_article_summary u t = Except.error he →
      WikipediaClient.get_random_article u =
        Except.error ⟨500, "Ошибка получения случайной статьи: " ++ he.str⟩) ∧
    (∀ e, WikipediaClient.get_random_article u = Except.error e →
      e.status_code = 500) := by
  constructor
  · intro t he ht hsum
    simp only [WikipediaClient.get_random_article, ht, hsum]
  · intro e h
    unfold WikipediaClient.get_random_article at h
    cases hr : u.random with
    | error ex =>
      simp only [hr] at h
      injection h with h2
      rw [← h2]
    | ok t =>
      simp only [hr] at h
      cases hs : WikipediaClient.get_article_summary u t with
      | ok r =>
        simp only [hs] at h
        exact absurd h (by simp)
      | error he =>
        simp only [hs] at h
        injection h with h2
        rw [← h2]

/-- Witness for C9 at a concrete oracle: the randomly selected title is
missing, the inner summary call fails with 404, and the random-article
operation reports 500. -/
theorem get_random_article_failures_are_500_witness :
    WikipediaClient.get_random_article uNotFound =
      Except.error ⟨500, "Ошибка получения случайной статьи: " ++
        (HTTPException.mk 404 "Страница не найдена").str⟩ :=
  (get_random_article_failures_are_500 uNotFound).1 "t"
    ⟨404, "Страница не найдена"⟩ rfl rfl
